import Mathlib

/-!
Verification of the autotrade Wi-Fi throughput bench orchestrator.

Shallow embedding of the bring-up / rate-lock / sweep orchestration
subsystem of the repository (src/main.py, src/iperf.py, src/wifi_channel.py,
src/rate.py, src/dut.py, src/asus_ap.py, src/asus_pc.py), together with
theorems settling the behavioural claims about it.

Remote side effects (spawned subprocesses, SSH channels, text read back
from the devices) are modelled as oracles: a function from an attempt
index to the outcome the remote side produced on that attempt.  All
control flow (retry counters, set membership, success tests, exception
propagation via `Except`) is translated directly from the Python source.
-/

namespace Autotrade

/-- Direction of a throughput test (`"TX"` / `"RX"` in the source). -/
inductive Dir where
  | TX
  | RX
deriving DecidableEq, Repr

/-! ## Python `range(start, stop, -1)` (descending, step −1)

Used by `main.parse_mcs_list` (`range(8,-1,-1)`, `range(9,-1,-1)`),
`main.RATE_SWEEP_2G_PLAN` (`range(15,7,-1)`) and `config.TEST_MCS_TABLE`. -/

/-- Auxiliary recursion for `rangeDown`, on the number of remaining
elements. -/
def rangeDownAux : Nat → Int → List Int
  | 0, _ => []
  | n + 1, start => start :: rangeDownAux n (start - 1)

/-- Python `range(start, stop, -1)`: the descending list
`[start, start-1, ..., stop+1]` (empty when `start ≤ stop`). -/
def rangeDown (start stop : Int) : List Int :=
  rangeDownAux (start - stop).toNat start

/-! ## src/main.py — rate plans -/

/-- The `--mcs` CLI argument as consumed by `parse_mcs_list`:
either the string `"auto"` or a single validated numeric value. -/
inductive McsArg where
  | auto
  | single (v : Int)
deriving DecidableEq, Repr

/-- Model of `main.parse_mcs_list(band, bw, mcs_arg)` (src/main.py lines 279-288).

```python
if mcs_arg != "auto": return [int(mcs_arg)]
if band == "5G":
    if bw == 20: return list(range(8, -1, -1))
    return list(range(9, -1, -1))
raise RuntimeError("2G sweep must use explicit RATE_SWEEP_2G_PLAN")
``` -/
def parse_mcs_list (band : String) (bw : Nat) (mcs_arg : McsArg) : Except String (List Int) :=
  match mcs_arg with
  | .single v => .ok [v]
  | .auto =>
    if band = "5G" then
      if bw = 20 then .ok (rangeDown 8 (-1))
      else .ok (rangeDown 9 (-1))
    else .error "2G sweep must use explicit RATE_SWEEP_2G_PLAN"

/-- Model of `main.RATE_SWEEP_2G_PLAN` (src/main.py lines 269-273 and 610-614):
`[("11n", range(15,7,-1)), ("11g", [54]), ("11b", [11])]`. -/
def RATE_SWEEP_2G_PLAN : List (String × List Int) :=
  [("11n", rangeDown 15 7), ("11g", [54]), ("11b", [11])]

/-- Model of `config.TEST_MCS_TABLE` (src/config.py lines 102-106):
`{20: range(8,-1,-1), 40: range(9,-1,-1), 80: range(9,-1,-1)}`. -/
def TEST_MCS_TABLE (bw : Nat) : Option (List Int) :=
  if bw = 20 then some (rangeDown 8 (-1))
  else if bw = 40 then some (rangeDown 9 (-1))
  else if bw = 80 then some (rangeDown 9 (-1))
  else none

/-! ## src/iperf.py — 2.4 GHz rate classifier -/

/-- Model of `iperf._set_rate_2g_from_value(value)` (src/iperf.py lines 173-194).

```python
if value in (1, 2, 11): return ("11b", value)   # CCK, checked first
if value == 54:         return ("11g", value)   # OFDM
if 0 <= value <= 15:    return ("11n", value)   # HT MCS
raise ValueError(...)
``` -/
def set_rate_2g_from_value (value : Int) : Except String (String × Int) :=
  if value = 1 ∨ value = 2 ∨ value = 11 then .ok ("11b", value)
  else if value = 54 then .ok ("11g", value)
  else if 0 ≤ value ∧ value ≤ 15 then .ok ("11n", value)
  else .error "Unsupported 2G MCS/Rate value"

/-- Model of `iperf._wl_2g_rate_cmd(iface, value, bw)` (src/iperf.py lines 197-213):
classifies `value` and builds the `wl` command line (HT mode adds the
`--sgi --ldpc` flags, the legacy modes do not). -/
def wl_2g_rate_cmd (iface : String) (value : Int) (bw : Nat) :
    Except String (String × String × Int) := do
  let (mode, v) ← set_rate_2g_from_value value
  if mode = "11n" then
    .ok ("wl -i " ++ iface ++ " 2g_rate -h " ++ toString v ++ " -b " ++ toString bw
          ++ " --sgi --ldpc", mode, v)
  else if mode = "11g" then
    .ok ("wl -i " ++ iface ++ " 2g_rate -r " ++ toString v ++ " -b " ++ toString bw, mode, v)
  else if mode = "11b" then
    .ok ("wl -i " ++ iface ++ " 2g_rate -r " ++ toString v ++ " -b " ++ toString bw, mode, v)
  else .error mode

/-! ## src/dut.py — one-shot remote execution -/

/-- Outcome of the local `mssh` subprocess in `dut.run_mssh_once`:
either `communicate(timeout=...)` raised `TimeoutExpired` (the process
tree is killed and `capturedOut` is whatever output was then collected,
possibly empty), or the process finished with `returncode` and the
merged stdout+stderr text `out`. -/
inductive ProcOutcome where
  | timeoutExpired (capturedOut : String)
  | finished (returncode : Int) (out : String)
deriving DecidableEq, Repr

/-- Model of `dut.run_mssh_once(cmd, timeout, ignore_error)` (src/dut.py lines 60-109),
as a function of the subprocess outcome.

```python
try: out, _ = p.communicate(timeout=timeout)
except TimeoutExpired:
    _kill_process_tree(p); out = <partial or "">
    if ignore_error: return out or ""
    raise RuntimeError("mssh timeout ...")
if p.returncode != 0 and not ignore_error:
    raise RuntimeError("mssh failed ...")
return out or ""
``` -/
def run_mssh_once (outcome : ProcOutcome) (ignore_error : Bool) : Except String String :=
  match outcome with
  | .timeoutExpired out =>
    if ignore_error then .ok out
    else .error ("mssh timeout OUT: " ++ out)
  | .finished rc out =>
    if rc ≠ 0 ∧ ignore_error = false then
      .error ("mssh failed (rc=" ++ toString rc ++ ") OUT: " ++ out)
    else .ok out

/-! ## src/asus_ap.py, src/asus_pc.py — device-control exec with one
transparent reconnect -/

/-- Outcome of one `_do_exec()` call inside `AsusAP.exec` / `AsusPC.exec`:
either the command ran and produced output, or the session failed with one
of the caught transport exceptions (`SSHException`, `OSError`, and for
`AsusAP` also `AttributeError`). -/
inductive ExecOutcome where
  | ok (out : String)
  | transportErr (msg : String)
deriving DecidableEq, Repr

/-- Trace of one `exec` call: the value returned (or the exception that
propagated to the caller), the number of forced reconnects performed, and
the number of `_do_exec` attempts made. -/
structure ExecTrace where
  result : Except String String
  reconnects : Nat
  execAttempts : Nat
deriving Repr

/-- Model of `AsusAP.exec(cmd)` (src/asus_ap.py lines 101-158), as a function of
the per-attempt session outcome.

```python
try: return _do_exec()
except (SSHException | OSError | AttributeError):
    self.close(); self.connect(force=True)
    return _do_exec()          # a second failure propagates
``` -/
def AsusAP_exec (attempt : Nat → ExecOutcome) : ExecTrace :=
  match attempt 0 with
  | .ok out => ⟨.ok out, 0, 1⟩
  | .transportErr _ =>
    match attempt 1 with
    | .ok out => ⟨.ok out, 1, 2⟩
    | .transportErr e => ⟨.error e, 1, 2⟩

/-- Model of `AsusPC.exec(cmd)` (src/asus_pc.py lines 97-120): same shape —
`connect` (which closes any existing session) is forced once after a
caught `SSHException`/`OSError` and the command is retried exactly once;
the retried command's failure propagates. -/
def AsusPC_exec (attempt : Nat → ExecOutcome) : ExecTrace :=
  match attempt 0 with
  | .ok out => ⟨.ok out, 0, 1⟩
  | .transportErr _ =>
    match attempt 1 with
    | .ok out => ⟨.ok out, 1, 2⟩
    | .transportErr e => ⟨.error e, 1, 2⟩

/-! ## src/wifi_channel.py — 5 GHz driver-level channel lock -/

/-- Model of `CENTER_80M` (src/wifi_channel.py lines 19-22): the fixed 80 MHz
primary-channel → center-frequency-index table `{36: 42, 149: 155}`. -/
def CENTER_80M (ch : Nat) : Option Nat :=
  if ch = 36 then some 42
  else if ch = 149 then some 155
  else none

/-- Model of `wifi_channel._apply_vht_center_if_needed(bw, ch)` (lines 159-185):
no patch unless `bw == 80`; for 80 MHz the hostapd runtime configuration
is patched with `vht_oper_chwidth=1` and
`vht_oper_centr_freq_seg0_idx=CENTER_80M[ch]`, raising when the channel
has no table entry.  Returns the center index written, if any. -/
def apply_vht_center_if_needed (bw ch : Nat) : Except String (Option Nat) :=
  if bw ≠ 80 then .ok none
  else
    match CENTER_80M ch with
    | none => .error ("No 80MHz center mapping for channel " ++ toString ch)
    | some center => .ok (some center)

/-- The value of `_CHANSPEC_RE = ^(\d+)([lu]?)` (case-insensitive) applied
to a token: the leading digit run as a number, and the captured sideband
suffix character (which keeps its original case, `""` when absent). -/
def chanspecParse (token : String) : Option (Nat × String) :=
  let cs := token.toList
  let ds := cs.takeWhile Char.isDigit
  let rest := cs.dropWhile Char.isDigit
  if ds.isEmpty then none
  else
    let suffix :=
      match rest with
      | c :: _ =>
        if c = 'l' || c = 'u' || c = 'L' || c = 'U' then String.mk [c] else ""
      | [] => ""
    some (ds.foldl (fun n c => n * 10 + (c.toNat - '0'.toNat)) 0, suffix)

/-- Model of `_match(token)` inside `wifi_channel._wl_set_chanspec` (lines 206-220):

```python
got_ch, suffix = regex groups
if bw == 20: return got_ch == ch and suffix == ""
if bw == 40: return got_ch == ch and suffix in ("l", "u")
if bw == 80: return got_ch == ch
return False
``` -/
def chanspec_match (bw ch : Nat) (token : String) : Bool :=
  match chanspecParse token with
  | none => false
  | some (got_ch, suffix) =>
    if bw = 20 then got_ch == ch && suffix == ""
    else if bw = 40 then got_ch == ch && (suffix == "l" || suffix == "u")
    else if bw = 80 then got_ch == ch
    else false

/-- Python `str.strip()`: drop leading and trailing whitespace. -/
def pyStrip (s : String) : String :=
  String.mk (((s.toList.dropWhile Char.isWhitespace).reverse.dropWhile
    Char.isWhitespace).reverse)

/-- The first whitespace-separated word of an already-stripped string
(`cs.split()[0]`). -/
def firstWord (s : String) : String :=
  String.mk (s.toList.takeWhile (fun c => !c.isWhitespace))

/-- One verification read of `wl chanspec` in `_wl_set_chanspec`: the
output is stripped; an empty read never matches; otherwise the token is
the first whitespace-separated word (`cs.split()[0]`). -/
def readbackMatches (bw ch : Nat) (raw : String) : Bool :=
  let cs := pyStrip raw
  if cs = "" then false
  else chanspec_match bw ch (firstWord cs)

/-- The retry loop of `wifi_channel._wl_set_chanspec` (lines 224-249):
`for attempt in range(1, 4)` — up to 3 attempts, each setting the
chanspec and re-reading it (`readback i` is the `wl chanspec` output of
attempt `i`); a matching token returns, exhaustion raises. -/
def wlSetChanspecAux (bw ch : Nat) (readback : Nat → String) :
    Nat → Nat → Except String Unit
  | 0, _ => .error ("wl chanspec failed: BW=" ++ toString bw ++ " CH=" ++ toString ch)
  | n + 1, idx =>
    if readbackMatches bw ch (readback idx) then .ok ()
    else wlSetChanspecAux bw ch readback n (idx + 1)

/-- Model of `wifi_channel._wl_set_chanspec(bw, ch)` (lines 192-249), as a function
of the per-attempt `wl chanspec` readbacks. -/
def wl_set_chanspec (bw ch : Nat) (readback : Nat → String) : Except String Unit :=
  wlSetChanspecAux bw ch readback 3 0

/-! ## src/rate.py — AP-side MCS apply-and-verify (raises on persistent
verification mismatch; not referenced by the sweep in src/main.py) -/

/-- Whether one re-read of `wl nrate` (parsed by `NRATE_RE` into
`(got_mcs, got_nss, got_bw)`, `none` when the pattern does not match)
agrees with the requested MCS/NSS/width, as tested in
`rate.set_and_verify_mcs_ap`. -/
def nrateMatches (bw mcs nss : Nat) (rep : Option (Nat × Nat × Nat)) : Bool :=
  match rep with
  | some (got_mcs, got_nss, got_bw) =>
    got_mcs == mcs && got_nss == nss && got_bw == bw
  | none => false

/-- The retry loop of `rate.set_and_verify_mcs_ap` (src/rate.py lines
12-37): `report i` is the parsed `wl nrate` re-read of attempt `i`
(the two remote commands themselves are modelled as succeeding; their
failure path is `run_mssh_once` with `ignore_error=False`). -/
def setVerifyAux (bw mcs nss : Nat) (report : Nat → Option (Nat × Nat × Nat)) :
    Nat → Nat → Except String Unit
  | 0, _ => .error "MCS verify failed"
  | n + 1, i =>
    if nrateMatches bw mcs nss (report i) then .ok ()
    else setVerifyAux bw mcs nss report n (i + 1)

/-- Model of `rate.set_and_verify_mcs_ap(bw, mcs, nss, retry)` (src/rate.py lines
12-37): applies the rate and re-reads `wl nrate` up to `retry` times;
a matching read returns, exhausting the retries **raises**
`RuntimeError("MCS verify failed ...")`. -/
def set_and_verify_mcs_ap (bw mcs nss retry : Nat)
    (report : Nat → Option (Nat × Nat × Nat)) : Except String Unit :=
  setVerifyAux bw mcs nss report retry 0

/-! ## src/iperf.py — AP throughput run: rate lock, warm-up, barrier /
recovery loop -/

/-- Python `str.rstrip()`: drop trailing whitespace. -/
def pyRstrip (s : String) : String :=
  String.mk ((s.toList.reverse.dropWhile Char.isWhitespace).reverse)

/-- The lines of one streamed `iperf3` execution that survive
`line = line.rstrip(); if not line: continue` in `run_iperf_ap`. -/
def nonEmptyLines (lines : List String) : List String :=
  (lines.map pyRstrip).filter (fun l => l != "")

/-- Python `str.lower()`. -/
def pyLower (s : String) : String :=
  String.mk (s.toList.map Char.toLower)

/-- Python's `pat in s` substring test. -/
def isSubstring (pat s : String) : Bool :=
  s.toList.tails.any (fun t => pat.toList.isPrefixOf t)

/-- Model of `iperf._looks_like_connect_fail(line)` (src/iperf.py lines 490-496):
case-insensitive substring test for the three connect-failure
signatures. -/
def looks_like_connect_fail (line : String) : Bool :=
  let low := pyLower line
  isSubstring "unable to connect" low
    || isSubstring "no route to host" low
    || isSubstring "network is unreachable" low

/-- Model of `saw_output` after streaming one execution of the real command. -/
def sawOutput (lines : List String) : Bool :=
  !(nonEmptyLines lines).isEmpty

/-- Model of `saw_connect_fail` after streaming one execution of the real
command. -/
def sawConnectFail (lines : List String) : Bool :=
  (nonEmptyLines lines).any looks_like_connect_fail

/-- The success test of one attempt in `run_iperf_ap`:
`if saw_output and not saw_connect_fail: return {"ok": True}`. -/
def attemptOk (lines : List String) : Bool :=
  sawOutput lines && !sawConnectFail lines

/-- Statistics of the inner recovery loop: final success flag, number of
executions of the real command, number of hostapd restarts. -/
structure InnerStats where
  ok : Bool
  attempts : Nat
  restarts : Nat
deriving DecidableEq, Repr

/-- The inner loop `for recover_try in range(0, ap_recover_tries + 1)` of
`run_iperf_ap` (src/iperf.py lines 685-718).  `remaining` is the number of
recovery attempts still allowed (`ap_recover_tries - recover_try`), `idx`
the global index of the next execution of the real command (`outputs idx`
is its streamed output), `ridx` the global index of the next hostapd
restart.  On a failed attempt: a non-TX direction breaks out; TX with
recoveries remaining calls `_dut_ap_restart_hostapd` and re-applies the
data-plane barrier before retrying.  `restart ridx` is the outcome of
that restart: `.ok ()` when its commands succeed (or when the missing
runtime configuration makes it return early without restarting), and
`.error e` when the `hostapd -B -i wlan1 <runtime conf>` command — run
through `run_mssh_once` with `ignore_error=False` (src/iperf.py lines
522-525) — raises `RuntimeError`; that exception is caught nowhere in
`run_iperf_ap` (its `try` has only a `finally`) and propagates. -/
def runInner (dir : Dir) (outputs : Nat → List String)
    (restart : Nat → Except String Unit) :
    Nat → Nat → Nat → Except String InnerStats
  | remaining, idx, ridx =>
    if attemptOk (outputs idx) then .ok ⟨true, 1, 0⟩
    else if dir = Dir.TX then
      match remaining with
      | 0 => .ok ⟨false, 1, 0⟩
      | r + 1 =>
        match restart ridx with
        | .error e => .error e
        | .ok _ =>
          match runInner dir outputs restart r (idx + 1) (ridx + 1) with
          | .error e => .error e
          | .ok s => .ok ⟨s.ok, s.attempts + 1, s.restarts + 1⟩
    else .ok ⟨false, 1, 0⟩

/-- Statistics of the whole barrier/recovery phase: final success flag,
executions of the real command, hostapd restarts, outer barrier
applications. -/
structure RunStats where
  ok : Bool
  attempts : Nat
  restarts : Nat
  barriers : Nat
deriving DecidableEq, Repr

/-- The outer loop `for outer_try in range(1, outer_barrier_tries + 1)` of
`run_iperf_ap` (src/iperf.py lines 679-724): each iteration applies the
data-plane barrier (neighbor-cache drop plus two primer pings, all
best-effort — never raising) and runs the inner loop; exhaustion writes
`# RESULT=FAIL` and returns the failure result; an exception raised by a
hostapd restart inside the inner loop propagates. -/
def runOuter (dir : Dir) (outputs : Nat → List String)
    (restart : Nat → Except String Unit) (recoverTries : Nat) :
    Nat → Nat → Nat → Except String RunStats
  | 0, _, _ => .ok ⟨false, 0, 0, 0⟩
  | o + 1, idx, ridx =>
    match runInner dir outputs restart recoverTries idx ridx with
    | .error e => .error e
    | .ok s =>
      if s.ok then .ok ⟨true, s.attempts, s.restarts, 1⟩
      else
        match runOuter dir outputs restart recoverTries o
            (idx + s.attempts) (ridx + s.restarts) with
        | .error e => .error e
        | .ok t =>
          .ok ⟨t.ok, s.attempts + t.attempts, s.restarts + t.restarts, 1 + t.barriers⟩

/-- The `REAL TEST` phase of `run_iperf_ap` (src/iperf.py lines 675-724):
`outer_barrier_tries = 3`, `ap_recover_tries = 2 if direction == "TX"
else 0`. -/
def realTestLoop (dir : Dir) (outputs : Nat → List String)
    (restart : Nat → Except String Unit) : Except String RunStats :=
  runOuter dir outputs restart (if dir = Dir.TX then 2 else 0) 3 0 0

/-- Model of `iperf._ap_tx_rate_lock_robust_5g` (src/iperf.py lines 532-567):
clears the override, then makes `max_retry = 2` attempts at
`wl 5g_rate -v ... --sgi --ldpc` (`applyOk i` is whether attempt `i`'s
remote command succeeded); exhausted retries print
`rate lock failed, continue without override` and return `False` —
the function never raises. -/
def ap_tx_rate_lock_robust_5g (applyOk : Nat → Bool) : Bool :=
  if applyOk 0 then true
  else if applyOk 1 then true
  else false

/-- Model of `iperf._set_rate_2g_dut` (src/iperf.py lines 216-234): builds the
`wl 2g_rate` command (classification errors — `ValueError` — propagate),
then makes `max_retry = 2` attempts; exhausted retries return `False`
("continue without override"). -/
def set_rate_2g_dut (value : Int) (bw : Nat) (applyOk : Nat → Bool) :
    Except String Bool := do
  let _ ← wl_2g_rate_cmd "wlan0" value bw
  if applyOk 0 then .ok true
  else if applyOk 1 then .ok true
  else .ok false

/-- Model of `iperf._asus_set_rx_rate_2g` (src/iperf.py lines 285-324): builds the
same command for the ASUS `eth6` interface (classification errors
propagate out of the `try/finally`); the SSH exec and the `nrate`/`rate`
verification read-backs (whose failures are caught) are modelled as
succeeding. -/
def asus_set_rx_rate_2g (value : Int) (bw : Nat) : Except String Bool := do
  let _ ← wl_2g_rate_cmd "eth6" value bw
  .ok true

/-- The band-aware rate-lock stage at the top of `run_iperf_ap`
(src/iperf.py lines 596-619): 5 GHz TX uses the robust DUT lock, 5 GHz RX
is handled by the ASUS-PC path in main.py (no-op here), 2 GHz dispatches
on direction (the RX side's `2g_rate auto` clear runs with
`ignore_error=True`), and an unsupported band raises `ValueError`. -/
def rateLockStage (band : String) (dir : Dir) (mcs : Int)
    (applyOk : Nat → Bool) : Except String Bool :=
  if band = "5G" then
    if dir = Dir.TX then .ok (ap_tx_rate_lock_robust_5g applyOk)
    else .ok true
  else if band = "2G" then
    if dir = Dir.TX then set_rate_2g_dut mcs 20 applyOk
    else asus_set_rx_rate_2g mcs 20
  else .error ("Unsupported band: " ++ band)

/-- Model of `(band, bw, channel, direction)` — an element of the module-level
warmed-up set `iperf._AP_WARMED` (src/iperf.py line 468). -/
abbrev WarmKey := String × Nat × Nat × Dir

/-- Everything one call of `run_iperf_ap` produces in the model: the
updated warmed-up set, whether the warm-up transfer ran, the rate-lock
outcome, and the statistics of the real-test phase (`ok` is the `"ok"`
field of the returned dict). -/
structure ApRunResult where
  warmed : List WarmKey
  didWarmup : Bool
  rateLocked : Bool
  ok : Bool
  attempts : Nat
  restarts : Nat
  barriers : Nat
deriving DecidableEq, Repr

/-- The fields of an `ApRunResult` that do not depend on the rate-lock
outcome (used to state that the sweep proceeds to the throughput run
regardless of the rate lock). -/
def ApRunResult.observables (r : ApRunResult) :
    List WarmKey × Bool × Bool × Nat × Nat × Nat :=
  (r.warmed, r.didWarmup, r.ok, r.attempts, r.restarts, r.barriers)

/-- Model of `iperf.run_iperf_ap` (src/iperf.py lines 570-727) with the module
state `_AP_WARMED` passed explicitly: rate-lock stage (result unused by
the control flow), then warm-up exactly when `(band, bw, channel,
direction)` is not yet in the warmed-up set (the key is added afterwards;
nothing is ever removed), then the barrier/recovery real-test phase.
Exceptions (`Except.error`) arise from the rate-lock stage or from a
hostapd restart raising inside the real-test phase; a raising run
produces no `ApRunResult` (in the source the module-level set was
already updated before the real test — since the set only grows and
gates the warm-up, this cannot enable a second warm-up for any key, and
the sweep stops at the exception anyway). -/
def run_iperf_ap (warmed : List WarmKey) (band : String) (bw channel : Nat)
    (dir : Dir) (mcs : Int) (applyOk : Nat → Bool)
    (outputs : Nat → List String)
    (restart : Nat → Except String Unit) : Except String ApRunResult := do
  let rateLocked ← rateLockStage band dir mcs applyOk
  let key : WarmKey := (band, bw, channel, dir)
  let stats ← realTestLoop dir outputs restart
  if key ∈ warmed then
    .ok ⟨warmed, false, rateLocked, stats.ok, stats.attempts, stats.restarts,
      stats.barriers⟩
  else
    .ok ⟨key :: warmed, true, rateLocked, stats.ok, stats.attempts,
      stats.restarts, stats.barriers⟩

/-- One AP test point as dispatched by the sweep in `main.main`:
its key fields and the oracles for its remote effects. -/
structure ApCall where
  band : String
  bw : Nat
  channel : Nat
  dir : Dir
  mcs : Int
  applyOk : Nat → Bool
  outputs : Nat → List String
  restart : Nat → Except String Unit

/-- The warmed-up-set key of a call. -/
def ApCall.key (c : ApCall) : WarmKey := (c.band, c.bw, c.channel, c.dir)

/-- A sequence of `run_iperf_ap` calls within one orchestrator run,
threading the `_AP_WARMED` set; returns the final set and the per-call
trace `(key, warm-up executed?)`.  An exception stops the run (in
src/main.py nothing catches it). -/
def runSweepCalls : List WarmKey → List ApCall → List WarmKey × List (WarmKey × Bool)
  | st, [] => (st, [])
  | st, c :: rest =>
    match run_iperf_ap st c.band c.bw c.channel c.dir c.mcs c.applyOk c.outputs
        c.restart with
    | .error _ => (st, [])
    | .ok r =>
      ((runSweepCalls r.warmed rest).1,
        (c.key, r.didWarmup) :: (runSweepCalls r.warmed rest).2)

/-- How many calls in a trace executed the warm-up for key `k`. -/
def countWarm (tr : List (WarmKey × Bool)) (k : WarmKey) : Nat :=
  (tr.filter (fun p => p.2 && decide (p.1 = k))).length

/-! ## src/main.py — the sweep loop over the (bw, channel) matrix -/

/-- The `(bw, channel)` matrix points visited by the nested
`for bw in args.bw: for ch in args.ch:` loops of `main.main`
(src/main.py lines 460-467), with the 2 GHz guardrail
(`if band == "2G" and bw != 20: continue`) applied. -/
def matrixPoints (band : String) (bws chs : List Nat) : List (Nat × Nat) :=
  (bws.flatMap (fun bw => chs.map (fun ch => (bw, ch)))).filter
    (fun p => !(band == "2G" && p.1 != 20))

/-- The per-point `try: ... finally: <close sessions>` body of the sweep
loop (src/main.py lines 469-658), iterated over the matrix points.
`f p` is the outcome of the point's body (session connect, AP bring-up —
`set_ap_channel_and_bw` / `wait_sta_connected` raise `RuntimeError` on
bring-up failure — and the rate sweep).  There is **no** `except`
clause: the `finally` closes the controller sessions and the exception
propagates, so processing stops at the first failing point.  Returns the
points whose body was entered and the error that terminated the run, if
any. -/
def processPoints (f : Nat × Nat → Except String Unit) :
    List (Nat × Nat) → List (Nat × Nat) × Option String
  | [] => ([], none)
  | p :: rest =>
    match f p with
    | .error e => ([p], some e)
    | .ok _ =>
      let (l, r) := processPoints f rest
      (p :: l, r)

/-- The sweep of `main.main` over the full matrix. -/
def mainSweep (band : String) (bws chs : List Nat)
    (f : Nat × Nat → Except String Unit) : List (Nat × Nat) × Option String :=
  processPoints f (matrixPoints band bws chs)

/-- A bring-up oracle that fails exactly at the point (20, 36). -/
def bringupFailsAt2036 : Nat × Nat → Except String Unit :=
  fun p => if p = (20, 36) then .error "AP bring-up FAILED: BW=20 CH=36" else .ok ()

end Autotrade

namespace Autotrade

/-! ## Theorems -/

/-- C3: For every band and width in the sweep, the generated rate plan is
non-empty and equals exactly the documented ordered list: 5 GHz width 20 →
MCS 8..0; 5 GHz widths 40 and 80 → MCS 9..0; 2.4 GHz → the fixed
three-phase plan MCS 15..8, then 54, then 11; likewise for
`config.TEST_MCS_TABLE`. -/
theorem rate_plans_match_documented_lists :
    parse_mcs_list "5G" 20 .auto = .ok [8, 7, 6, 5, 4, 3, 2, 1, 0]
    ∧ parse_mcs_list "5G" 40 .auto = .ok [9, 8, 7, 6, 5, 4, 3, 2, 1, 0]
    ∧ parse_mcs_list "5G" 80 .auto = .ok [9, 8, 7, 6, 5, 4, 3, 2, 1, 0]
    ∧ RATE_SWEEP_2G_PLAN.flatMap Prod.snd = [15, 14, 13, 12, 11, 10, 9, 8, 54, 11]
    ∧ RATE_SWEEP_2G_PLAN.all (fun p => !p.snd.isEmpty) = true
    ∧ TEST_MCS_TABLE 20 = some [8, 7, 6, 5, 4, 3, 2, 1, 0]
    ∧ TEST_MCS_TABLE 40 = some [9, 8, 7, 6, 5, 4, 3, 2, 1, 0]
    ∧ TEST_MCS_TABLE 80 = some [9, 8, 7, 6, 5, 4, 3, 2, 1, 0] := by
  refine ⟨rfl, rfl, rfl, rfl, rfl, rfl, rfl, rfl⟩

/-- C4: the 2.4 GHz rate classifier maps 1, 2 and 11 to legacy CCK
(`"11b"`), 54 to legacy OFDM (`"11g"`), the remaining values of 0..15 to
HT MCS (`"11n"`); in particular 11 classifies as CCK, never as an MCS
index, because the CCK case is checked first. -/
theorem rate_2g_classifier_correct :
    (∀ v : Int, (v = 1 ∨ v = 2 ∨ v = 11) →
        set_rate_2g_from_value v = .ok ("11b", v))
    ∧ set_rate_2g_from_value 54 = .ok ("11g", 54)
    ∧ (∀ v : Int, 0 ≤ v → v ≤ 15 → ¬(v = 1 ∨ v = 2 ∨ v = 11) →
        set_rate_2g_from_value v = .ok ("11n", v))
    ∧ set_rate_2g_from_value 11 = .ok ("11b", 11) := by
  refine ⟨?_, rfl, ?_, rfl⟩
  · intro v hv
    simp only [set_rate_2g_from_value, if_pos hv]
  · intro v h0 h15 hne
    simp only [set_rate_2g_from_value, if_neg hne]
    have h54 : ¬ v = 54 := by omega
    rw [if_neg h54, if_pos ⟨h0, h15⟩]

/-- C4 witness: the classifier evaluated at the concrete inputs 11 and 7. -/
theorem rate_2g_classifier_correct_witness :
    set_rate_2g_from_value 11 = .ok ("11b", 11)
    ∧ set_rate_2g_from_value 7 = .ok ("11n", 7) := by
  refine ⟨(rate_2g_classifier_correct.1 11 (by decide)), ?_⟩
  exact rate_2g_classifier_correct.2.2.1 7 (by decide) (by decide) (by decide)

/-- C7: `run_mssh_once` raises on timeout when `ignore_error` is false,
raises on a nonzero remote exit code when `ignore_error` is false, returns
the captured output instead of raising in both cases when `ignore_error`
is true, and returns the merged output on success. -/
theorem run_mssh_once_contract :
    (∀ out : String, ∃ e, run_mssh_once (.timeoutExpired out) false = .error e)
    ∧ (∀ (rc : Int) (out : String), rc ≠ 0 →
        ∃ e, run_mssh_once (.finished rc out) false = .error e)
    ∧ (∀ out : String, run_mssh_once (.timeoutExpired out) true = .ok out)
    ∧ (∀ (rc : Int) (out : String), run_mssh_once (.finished rc out) true = .ok out)
    ∧ (∀ (out : String) (ig : Bool), run_mssh_once (.finished 0 out) ig = .ok out) := by
  refine ⟨fun out => ⟨_, rfl⟩, ?_, fun out => rfl, ?_, ?_⟩
  · intro rc out hrc
    exact ⟨"mssh failed (rc=" ++ toString rc ++ ") OUT: " ++ out,
      by simp [run_mssh_once, hrc]⟩
  · intro rc out
    simp [run_mssh_once]
  · intro out ig
    simp [run_mssh_once]

/-- C9: on a session-level transport failure, `exec` reconnects once and
retries the command exactly once; a first-attempt success neither
reconnects nor retries; a failure of the retried command propagates to
the caller as the error, with no further reconnect (`reconnects ≤ 1`,
`execAttempts ≤ 2` always, for both `AsusAP.exec` and `AsusPC.exec`). -/
theorem device_exec_reconnect_once :
    (∀ (attempt : Nat → ExecOutcome) (out : String),
        attempt 0 = .ok out → AsusAP_exec attempt = ⟨.ok out, 0, 1⟩)
    ∧ (∀ (attempt : Nat → ExecOutcome) (m out : String),
        attempt 0 = .transportErr m → attempt 1 = .ok out →
        AsusAP_exec attempt = ⟨.ok out, 1, 2⟩)
    ∧ (∀ (attempt : Nat → ExecOutcome) (m e : String),
        attempt 0 = .transportErr m → attempt 1 = .transportErr e →
        AsusAP_exec attempt = ⟨.error e, 1, 2⟩)
    ∧ (∀ attempt : Nat → ExecOutcome,
        (AsusAP_exec attempt).reconnects ≤ 1 ∧ (AsusAP_exec attempt).execAttempts ≤ 2)
    ∧ (∀ (attempt : Nat → ExecOutcome) (out : String),
        attempt 0 = .ok out → AsusPC_exec attempt = ⟨.ok out, 0, 1⟩)
    ∧ (∀ (attempt : Nat → ExecOutcome) (m out : String),
        attempt 0 = .transportErr m → attempt 1 = .ok out →
        AsusPC_exec attempt = ⟨.ok out, 1, 2⟩)
    ∧ (∀ (attempt : Nat → ExecOutcome) (m e : String),
        attempt 0 = .transportErr m → attempt 1 = .transportErr e →
        AsusPC_exec attempt = ⟨.error e, 1, 2⟩)
    ∧ (∀ attempt : Nat → ExecOutcome,
        (AsusPC_exec attempt).reconnects ≤ 1 ∧ (AsusPC_exec attempt).execAttempts ≤ 2) := by
  refine ⟨?_, ?_, ?_, ?_, ?_, ?_, ?_, ?_⟩
  · intro attempt out h0; simp [AsusAP_exec, h0]
  · intro attempt m out h0 h1; simp [AsusAP_exec, h0, h1]
  · intro attempt m e h0 h1; simp [AsusAP_exec, h0, h1]
  · intro attempt
    unfold AsusAP_exec
    cases attempt 0 <;> [simp; (cases attempt 1 <;> simp)]
  · intro attempt out h0; simp [AsusPC_exec, h0]
  · intro attempt m out h0 h1; simp [AsusPC_exec, h0, h1]
  · intro attempt m e h0 h1; simp [AsusPC_exec, h0, h1]
  · intro attempt
    unfold AsusPC_exec
    cases attempt 0 <;> [simp; (cases attempt 1 <;> simp)]

/-- C9 witness: a session that fails on both the original and the retried
command yields exactly one reconnect and propagates the second error. -/
theorem device_exec_reconnect_once_witness :
    AsusAP_exec (fun n => .transportErr ("err" ++ toString n)) = ⟨.error "err1", 1, 2⟩
    ∧ AsusPC_exec (fun n => .transportErr ("err" ++ toString n)) = ⟨.error "err1", 1, 2⟩ := by
  constructor
  · exact device_exec_reconnect_once.2.2.1 _ "err0" "err1" rfl rfl
  · exact device_exec_reconnect_once.2.2.2.2.2.2.1 _ "err0" "err1" rfl rfl

/-- C8: the 5 GHz driver-level channel lock verifies the reported chanspec
token — 20 MHz requires the channel number with no sideband suffix, 40 MHz
the channel number with an `l`/`u` suffix, 80 MHz only the leading channel
number; for 80 MHz the hostapd configuration is patched with the center
index from the fixed table (36 → 42, 149 → 155, others raise); the lock
makes up to 3 attempts and raises when all of them fail to verify. -/
theorem wl_chanspec_lock_correct :
    (∀ (ch : Nat) (tok : String), chanspec_match 20 ch tok = true ↔
        chanspecParse tok = some (ch, ""))
    ∧ (∀ (ch : Nat) (tok : String), chanspec_match 40 ch tok = true ↔
        (chanspecParse tok = some (ch, "l") ∨ chanspecParse tok = some (ch, "u")))
    ∧ (∀ (ch : Nat) (tok : String), chanspec_match 80 ch tok = true ↔
        ∃ s, chanspecParse tok = some (ch, s))
    ∧ apply_vht_center_if_needed 80 36 = .ok (some 42)
    ∧ apply_vht_center_if_needed 80 149 = .ok (some 155)
    ∧ (∀ ch : Nat, ch ≠ 36 → ch ≠ 149 →
        ∃ e, apply_vht_center_if_needed 80 ch = .error e)
    ∧ (∀ (bw ch : Nat) (readback : Nat → String),
        wl_set_chanspec bw ch readback = .ok () ↔
          (readbackMatches bw ch (readback 0) = true
            ∨ readbackMatches bw ch (readback 1) = true
            ∨ readbackMatches bw ch (readback 2) = true))
    ∧ (∀ (bw ch : Nat) (readback : Nat → String),
        readbackMatches bw ch (readback 0) = false →
        readbackMatches bw ch (readback 1) = false →
        readbackMatches bw ch (readback 2) = false →
        wl_set_chanspec bw ch readback =
          .error ("wl chanspec failed: BW=" ++ toString bw ++ " CH=" ++ toString ch)) := by
  refine ⟨?_, ?_, ?_, rfl, rfl, ?_, ?_, ?_⟩
  · intro ch tok
    cases h : chanspecParse tok with
    | none => simp [chanspec_match, h]
    | some p =>
      obtain ⟨got, suf⟩ := p
      simp [chanspec_match, h, Bool.and_eq_true, and_comm]
  · intro ch tok
    cases hp : chanspecParse tok with
    | none => simp [chanspec_match, hp]
    | some p =>
      obtain ⟨got, suf⟩ := p
      simp [chanspec_match, hp, Bool.and_eq_true, Bool.or_eq_true]
      tauto
  · intro ch tok
    cases hp : chanspecParse tok with
    | none => simp [chanspec_match, hp]
    | some p =>
      obtain ⟨got, suf⟩ := p
      simp [chanspec_match, hp]
  · intro ch h36 h149
    refine ⟨"No 80MHz center mapping for channel " ++ toString ch, ?_⟩
    simp [apply_vht_center_if_needed, CENTER_80M, h36, h149]
  · intro bw ch readback
    cases h0 : readbackMatches bw ch (readback 0) <;>
      cases h1 : readbackMatches bw ch (readback 1) <;>
        cases h2 : readbackMatches bw ch (readback 2) <;>
          simp [wl_set_chanspec, wlSetChanspecAux, h0, h1, h2]
  · intro bw ch readback h0 h1 h2
    simp [wl_set_chanspec, wlSetChanspecAux, h0, h1, h2]

/-- C8 witness: with channel 36, token `"36"` verifies at 20 MHz,
`"36l"` at 40 MHz and `"36/80 (0xe03a)"` at 80 MHz; a readback that never
matches exhausts the 3 attempts and raises; channel 40 has no 80 MHz
center mapping while 36 maps to 42. -/
theorem wl_chanspec_lock_correct_witness :
    chanspec_match 20 36 "36" = true
    ∧ chanspec_match 40 36 "36l" = true
    ∧ chanspec_match 80 36 "36/80" = true
    ∧ (∃ e, apply_vht_center_if_needed 80 40 = .error e)
    ∧ wl_set_chanspec 40 36 (fun _ => "36") =
        .error ("wl chanspec failed: BW=" ++ toString 40 ++ " CH=" ++ toString 36)
    ∧ wl_set_chanspec 20 36 (fun _ => "36 (0x1006)") = .ok () := by
  refine ⟨?_, ?_, ?_, ?_, ?_, ?_⟩
  · exact (wl_chanspec_lock_correct.1 36 "36").mpr (by decide)
  · exact (wl_chanspec_lock_correct.2.1 36 "36l").mpr (Or.inl (by decide))
  · exact (wl_chanspec_lock_correct.2.2.1 36 "36/80").mpr ⟨"", by decide⟩
  · exact wl_chanspec_lock_correct.2.2.2.2.2.1 40 (by decide) (by decide)
  · exact wl_chanspec_lock_correct.2.2.2.2.2.2.2 40 36 (fun _ => "36")
      (by decide) (by decide) (by decide)
  · exact (wl_chanspec_lock_correct.2.2.2.2.2.2.1 20 36 (fun _ => "36 (0x1006)")).mpr
      (Or.inl (by decide))

/-- C7 witness: concrete outcomes — a timeout and an exit code 1 both
raise with `ignore_error = False`; with `ignore_error = True` the captured
text is returned. -/
theorem run_mssh_once_contract_witness :
    (∃ e, run_mssh_once (.timeoutExpired "") false = .error e)
    ∧ (∃ e, run_mssh_once (.finished 1 "oops") false = .error e)
    ∧ run_mssh_once (.finished 1 "oops") true = .ok "oops"
    ∧ run_mssh_once (.finished 0 "done") false = .ok "done" := by
  refine ⟨run_mssh_once_contract.1 "", ?_, ?_, ?_⟩
  · exact run_mssh_once_contract.2.1 1 "oops" (by decide)
  · exact run_mssh_once_contract.2.2.2.1 1 "oops"
  · exact run_mssh_once_contract.2.2.2.2 "done" false

/-! ### Lemmas about the barrier/recovery loop of `run_iperf_ap` -/

/-- An attempt whose output carries a connect-failure signature never
satisfies the success test. -/
lemma attemptOk_false_of_connect_fail {lines : List String}
    (h : sawConnectFail lines = true) : attemptOk lines = false := by
  simp [attemptOk, h]

/-- An attempt with no non-empty output line never satisfies the success
test. -/
lemma attemptOk_false_of_silent {lines : List String}
    (h : nonEmptyLines lines = []) : attemptOk lines = false := by
  simp [attemptOk, sawOutput, h]

/-- When every execution fails and every invoked restart succeeds, the TX
inner loop uses its whole recovery budget: `remaining + 1` executions and
`remaining` hostapd restarts. -/
lemma runInner_tx_all_fail (outputs : Nat → List String)
    (restart : Nat → Except String Unit)
    (hfail : ∀ i, attemptOk (outputs i) = false)
    (hres : ∀ i, restart i = .ok ()) :
    ∀ remaining idx ridx, runInner .TX outputs restart remaining idx ridx
      = .ok ⟨false, remaining + 1, remaining⟩ := by
  intro remaining
  induction remaining with
  | zero => intro idx ridx; simp [runInner, hfail idx]
  | succ n ih =>
    intro idx ridx
    simp [runInner, hfail idx, hres ridx, ih (idx + 1) (ridx + 1)]

/-- The RX inner loop performs exactly one execution, never restarts
hostapd and never raises, whatever the outcome. -/
lemma runInner_rx (outputs : Nat → List String)
    (restart : Nat → Except String Unit) (remaining idx ridx : Nat) :
    runInner .RX outputs restart remaining idx ridx
      = .ok ⟨attemptOk (outputs idx), 1, 0⟩ := by
  cases remaining <;> cases h : attemptOk (outputs idx) <;> simp [runInner, h]

/-- When the TX inner loop returns (instead of raising out of a restart),
it made at most `remaining + 1` executions and `remaining` restarts. -/
lemma runInner_tx_bounds (outputs : Nat → List String)
    (restart : Nat → Except String Unit) :
    ∀ remaining idx ridx s,
      runInner .TX outputs restart remaining idx ridx = .ok s →
      s.attempts ≤ remaining + 1 ∧ s.restarts ≤ remaining := by
  intro remaining
  induction remaining with
  | zero =>
    intro idx ridx s h
    cases hA : attemptOk (outputs idx) <;> simp [runInner, hA] at h <;>
      subst h <;> simp
  | succ n ih =>
    intro idx ridx s h
    cases hA : attemptOk (outputs idx)
    · cases hR : restart ridx with
      | error e => simp [runInner, hA, hR] at h
      | ok u =>
        cases u
        cases hI : runInner .TX outputs restart n (idx + 1) (ridx + 1) with
        | error e => simp [runInner, hA, hR, hI] at h
        | ok si =>
          have hb := ih (idx + 1) (ridx + 1) si hI
          simp [runInner, hA, hR, hI] at h
          subst h
          simp
          omega
    · simp [runInner, hA] at h
      subst h
      simp

/-- When the TX inner loop returns without success, its attempts all
failed. -/
lemma runInner_tx_ok_false (outputs : Nat → List String)
    (restart : Nat → Except String Unit)
    (hfail : ∀ i, attemptOk (outputs i) = false) :
    ∀ remaining idx ridx s,
      runInner .TX outputs restart remaining idx ridx = .ok s →
      s.ok = false := by
  intro remaining
  induction remaining with
  | zero =>
    intro idx ridx s h
    simp [runInner, hfail idx] at h
    subst h
    rfl
  | succ n ih =>
    intro idx ridx s h
    cases hR : restart ridx with
    | error e => simp [runInner, hfail idx, hR] at h
    | ok u =>
      cases u
      cases hI : runInner .TX outputs restart n (idx + 1) (ridx + 1) with
      | error e => simp [runInner, hfail idx, hR, hI] at h
      | ok si =>
        have := ih (idx + 1) (ridx + 1) si hI
        simp [runInner, hfail idx, hR, hI] at h
        subst h
        simpa using this

/-- When every execution fails and every invoked restart succeeds, the TX
outer loop exhausts its budget: `o` barriers, `3 o` executions, `2 o`
restarts, failure result. -/
lemma runOuter_tx_all_fail (outputs : Nat → List String)
    (restart : Nat → Except String Unit)
    (hfail : ∀ i, attemptOk (outputs i) = false)
    (hres : ∀ i, restart i = .ok ()) :
    ∀ o idx ridx, runOuter .TX outputs restart 2 o idx ridx
      = .ok ⟨false, 3 * o, 2 * o, o⟩ := by
  intro o
  induction o with
  | zero => intro idx ridx; simp [runOuter]
  | succ n ih =>
    intro idx ridx
    simp only [runOuter, runInner_tx_all_fail outputs restart hfail hres, ih]
    simp [RunStats.mk.injEq]
    omega

/-- When every execution fails, the RX outer loop makes one execution per
barrier, never restarts, never raises, and fails. -/
lemma runOuter_rx_all_fail (outputs : Nat → List String)
    (restart : Nat → Except String Unit)
    (hfail : ∀ i, attemptOk (outputs i) = false) :
    ∀ o idx ridx, runOuter .RX outputs restart 0 o idx ridx
      = .ok ⟨false, o, 0, o⟩ := by
  intro o
  induction o with
  | zero => intro idx ridx; simp [runOuter]
  | succ n ih =>
    intro idx ridx
    simp only [runOuter, runInner_rx, hfail idx, ih]
    simp [RunStats.mk.injEq]
    omega

/-- Budget bounds for a TX outer loop that returns: at most `o` barriers,
`3 o` executions, and 2 restarts per barrier applied. -/
lemma runOuter_tx_bounds (outputs : Nat → List String)
    (restart : Nat → Except String Unit) :
    ∀ o idx ridx s, runOuter .TX outputs restart 2 o idx ridx = .ok s →
      s.barriers ≤ o ∧ s.attempts ≤ 3 * o ∧ s.restarts ≤ 2 * s.barriers := by
  intro o
  induction o with
  | zero =>
    intro idx ridx s h
    simp [runOuter] at h
    subst h
    simp
  | succ n ih =>
    intro idx ridx s h
    cases hI : runInner .TX outputs restart 2 idx ridx with
    | error e => simp [runOuter, hI] at h
    | ok si =>
      have hib := runInner_tx_bounds outputs restart 2 idx ridx si hI
      cases hok : si.ok
      · cases hO : runOuter .TX outputs restart 2 n (idx + si.attempts)
            (ridx + si.restarts) with
        | error e => simp [runOuter, hI, hok, hO] at h
        | ok t =>
          have hrb := ih (idx + si.attempts) (ridx + si.restarts) t hO
          simp [runOuter, hI, hok, hO] at h
          subst h
          simp
          omega
      · simp [runOuter, hI, hok] at h
        subst h
        simp
        omega

/-- An RX outer loop that returns never restarted hostapd. -/
lemma runOuter_rx_restarts (outputs : Nat → List String)
    (restart : Nat → Except String Unit) :
    ∀ o idx ridx s, runOuter .RX outputs restart 0 o idx ridx = .ok s →
      s.restarts = 0 := by
  intro o
  induction o with
  | zero =>
    intro idx ridx s h
    simp [runOuter] at h
    subst h
    rfl
  | succ n ih =>
    intro idx ridx s h
    cases hA : attemptOk (outputs idx)
    · cases hO : runOuter .RX outputs restart 0 n (idx + 1) ridx with
      | error e => simp [runOuter, runInner_rx, hA, hO] at h
      | ok t =>
        have := ih (idx + 1) ridx t hO
        simp [runOuter, runInner_rx, hA, hO] at h
        subst h
        simpa using this
    · simp [runOuter, runInner_rx, hA] at h
      subst h
      rfl

/-- A TX outer loop that returns without success had only failing
attempts produce only failing results. -/
lemma runOuter_tx_ok_false (outputs : Nat → List String)
    (restart : Nat → Except String Unit)
    (hfail : ∀ i, attemptOk (outputs i) = false) :
    ∀ o idx ridx s, runOuter .TX outputs restart 2 o idx ridx = .ok s →
      s.ok = false := by
  intro o
  induction o with
  | zero =>
    intro idx ridx s h
    simp [runOuter] at h
    subst h
    rfl
  | succ n ih =>
    intro idx ridx s h
    cases hI : runInner .TX outputs restart 2 idx ridx with
    | error e => simp [runOuter, hI] at h
    | ok si =>
      have hsi : si.ok = false := runInner_tx_ok_false outputs restart hfail 2 idx ridx si hI
      cases hO : runOuter .TX outputs restart 2 n (idx + si.attempts)
          (ridx + si.restarts) with
      | error e => simp [runOuter, hI, hsi, hO] at h
      | ok t =>
        have := ih (idx + si.attempts) (ridx + si.restarts) t hO
        simp [runOuter, hI, hsi, hO] at h
        subst h
        simpa using this

/-- C6 counterexample: the claim's "after all attempts fail the test
point is marked failed (a failure result is returned without raising) so
the sweep continues" fails on the code: a TX test whose output carries a
connect-failure signature triggers the hostapd restart, and the restart
runs `hostapd -B` through `run_mssh_once` with `ignore_error=False`
(src/iperf.py lines 522-525); when that command fails its
`RuntimeError` propagates out of `run_iperf_ap` (whose `try` has only a
`finally`) and — `main.main` catching nothing — aborts the sweep
mid-recovery instead of returning a failure result. -/
theorem ap_tx_restart_failure_raises_counterexample :
    run_iperf_ap [] "5G" 20 36 .TX 7 (fun _ => true)
        (fun _ => ["no route to host"])
        (fun _ => .error "mssh failed (rc=255)")
      = .error "mssh failed (rc=255)" := rfl

/-- C6 (amended): a TX AP test wraps the real run in at most 3 outer
barrier attempts, each allowing up to 2 inner recovery attempts (hostapd
restart from the runtime configuration plus barrier re-application); an
RX test makes zero recovery attempts and never raises from the loop.
With a connect-failure signature (`unable to connect` / `no route to
host` / `network is unreachable`) in every execution's output: provided
every invoked restart command succeeds, the TX budget is fully used — 9
executions, 6 restarts, 3 barriers — and the point is marked failed
(`ok = false` returned) so the sweep continues; but when the first
restart command fails, its `RuntimeError` propagates out of the loop
instead. -/
theorem ap_tx_barrier_recovery_loop :
    (∀ (outputs : Nat → List String) (restart : Nat → Except String Unit)
        (s : RunStats),
        realTestLoop .TX outputs restart = .ok s →
        s.barriers ≤ 3 ∧ s.attempts ≤ 9 ∧ s.restarts ≤ 2 * s.barriers)
    ∧ (∀ (outputs : Nat → List String) (restart : Nat → Except String Unit)
        (s : RunStats),
        realTestLoop .RX outputs restart = .ok s → s.restarts = 0)
    ∧ (∀ (outputs : Nat → List String) (restart : Nat → Except String Unit),
        (∀ n, sawConnectFail (outputs n) = true) →
        (∀ n, restart n = .ok ()) →
        realTestLoop .TX outputs restart = .ok ⟨false, 9, 6, 3⟩)
    ∧ (∀ (outputs : Nat → List String) (restart : Nat → Except String Unit),
        (∀ n, sawConnectFail (outputs n) = true) →
        realTestLoop .RX outputs restart = .ok ⟨false, 3, 0, 3⟩)
    ∧ (∀ (outputs : Nat → List String) (restart : Nat → Except String Unit)
        (e : String),
        (∀ n, sawConnectFail (outputs n) = true) →
        restart 0 = .error e →
        realTestLoop .TX outputs restart = .error e) := by
  refine ⟨?_, ?_, ?_, ?_, ?_⟩
  · intro outputs restart s h
    exact runOuter_tx_bounds outputs restart 3 0 0 s (by simpa [realTestLoop] using h)
  · intro outputs restart s h
    exact runOuter_rx_restarts outputs restart 3 0 0 s (by simpa [realTestLoop] using h)
  · intro outputs restart h hres
    have hfail : ∀ i, attemptOk (outputs i) = false :=
      fun i => attemptOk_false_of_connect_fail (h i)
    have := runOuter_tx_all_fail outputs restart hfail hres 3 0 0
    simpa [realTestLoop] using this
  · intro outputs restart h
    have hfail : ∀ i, attemptOk (outputs i) = false :=
      fun i => attemptOk_false_of_connect_fail (h i)
    have := runOuter_rx_all_fail outputs restart hfail 3 0 0
    simpa [realTestLoop] using this
  · intro outputs restart e h hr0
    have hA0 : attemptOk (outputs 0) = false := attemptOk_false_of_connect_fail (h 0)
    simp [realTestLoop, runOuter, runInner, hA0, hr0]

/-- C6 witness: with all restarts succeeding, a TX run whose output
always reads `"... No route to host"` exhausts 9 executions with 6
hostapd restarts and 3 barriers and is marked failed; the corresponding
RX run performs no restart at all; with the first restart failing, the
same TX run raises; a successful one-attempt run satisfies the budget
bounds. -/
theorem ap_tx_barrier_recovery_loop_witness :
    realTestLoop .TX
        (fun _ => ["iperf3: error - unable to connect to server: No route to host"])
        (fun _ => .ok ())
      = .ok ⟨false, 9, 6, 3⟩
    ∧ realTestLoop .RX (fun _ => ["write failed: Network is unreachable"])
        (fun _ => .ok ())
      = .ok ⟨false, 3, 0, 3⟩
    ∧ realTestLoop .TX (fun _ => ["connect failed: No route to host"])
        (fun _ => .error "mssh timeout (10s)")
      = .error "mssh timeout (10s)"
    ∧ ((⟨true, 1, 0, 1⟩ : RunStats).barriers ≤ 3
        ∧ (⟨true, 1, 0, 1⟩ : RunStats).attempts ≤ 9
        ∧ (⟨true, 1, 0, 1⟩ : RunStats).restarts ≤ 2 * (⟨true, 1, 0, 1⟩ : RunStats).barriers) := by
  refine ⟨?_, ?_, ?_, ?_⟩
  · exact ap_tx_barrier_recovery_loop.2.2.1 _ _ (fun n => by decide) (fun n => rfl)
  · exact ap_tx_barrier_recovery_loop.2.2.2.1 _ _ (fun n => by decide)
  · exact ap_tx_barrier_recovery_loop.2.2.2.2 _ _ _ (fun n => by decide) rfl
  · exact ap_tx_barrier_recovery_loop.1 (fun _ => ["data line"]) (fun _ => .ok ())
      ⟨true, 1, 0, 1⟩ rfl

/-- C10 counterexample: the claim's "after exhausting all retries the
function returns a result with ok=False" fails on the code: a TX run all
of whose attempts are silent is retried through the hostapd-restart
recovery, and a failing restart command raises `RuntimeError` out of
`run_iperf_ap` instead of returning any result. -/
theorem silent_run_restart_failure_raises_counterexample :
    run_iperf_ap [] "5G" 40 149 .TX 0 (fun _ => true) (fun _ => [])
        (fun _ => .error "mssh timeout (15s)")
      = .error "mssh timeout (15s)" := rfl

/-- C10 (amended): an AP throughput attempt whose streamed output
contains no non-empty line never passes the success test; a run all of
whose attempts are silent is retried under the same barrier/recovery
loop as a connect-failure and never returns success — whenever the loop
returns, `ok = false`; provided every invoked restart command succeeds
(and unconditionally for RX, which never restarts), the full budget is
used and `ok = false` is returned; a failing restart command instead
raises out of the loop. -/
theorem silent_output_never_success :
    (∀ lines : List String, nonEmptyLines lines = [] → attemptOk lines = false)
    ∧ (∀ (outputs : Nat → List String) (restart : Nat → Except String Unit),
        (∀ n, nonEmptyLines (outputs n) = []) →
        (∀ n, restart n = .ok ()) →
        realTestLoop .TX outputs restart = .ok ⟨false, 9, 6, 3⟩)
    ∧ (∀ (outputs : Nat → List String) (restart : Nat → Except String Unit),
        (∀ n, nonEmptyLines (outputs n) = []) →
        realTestLoop .RX outputs restart = .ok ⟨false, 3, 0, 3⟩)
    ∧ (∀ (dir : Dir) (outputs : Nat → List String)
        (restart : Nat → Except String Unit) (s : RunStats),
        (∀ n, nonEmptyLines (outputs n) = []) →
        realTestLoop dir outputs restart = .ok s → s.ok = false) := by
  have hfail : ∀ outputs : Nat → List String, (∀ n, nonEmptyLines (outputs n) = []) →
      ∀ i, attemptOk (outputs i) = false :=
    fun outputs h i => attemptOk_false_of_silent (h i)
  refine ⟨fun lines h => attemptOk_false_of_silent h, ?_, ?_, ?_⟩
  · intro outputs restart h hres
    have := runOuter_tx_all_fail outputs restart (hfail outputs h) hres 3 0 0
    simpa [realTestLoop] using this
  · intro outputs restart h
    have := runOuter_rx_all_fail outputs restart (hfail outputs h) 3 0 0
    simpa [realTestLoop] using this
  · intro dir outputs restart s h hs
    cases dir
    · exact runOuter_tx_ok_false outputs restart (hfail outputs h) 3 0 0 s
        (by simpa [realTestLoop] using hs)
    · have := runOuter_rx_all_fail outputs restart (hfail outputs h) 3 0 0
      rw [show realTestLoop .RX outputs restart
          = runOuter .RX outputs restart 0 3 0 0 from rfl, this] at hs
      cases hs
      rfl

/-- C10 witness: a run streaming only empty and whitespace lines is
marked failed after the full retry budget when the restarts succeed, in
both directions, and any returned result of such a run has `ok = false`. -/
theorem silent_output_never_success_witness :
    attemptOk ["", "   "] = false
    ∧ realTestLoop .TX (fun _ => ["", "   "]) (fun _ => .ok ()) = .ok ⟨false, 9, 6, 3⟩
    ∧ realTestLoop .RX (fun _ => ["", "   "]) (fun _ => .ok ()) = .ok ⟨false, 3, 0, 3⟩
    ∧ ((⟨false, 3, 0, 3⟩ : RunStats).ok = false) := by
  refine ⟨?_, ?_, ?_, ?_⟩
  · exact silent_output_never_success.1 _ (by decide)
  · exact silent_output_never_success.2.1 _ _ (fun n => by decide) (fun n => rfl)
  · exact silent_output_never_success.2.2.1 _ _ (fun n => by decide)
  · exact silent_output_never_success.2.2.2 .RX (fun _ => [""]) (fun _ => .ok ())
      ⟨false, 3, 0, 3⟩ (fun n => rfl) rfl

/-! ### Lemmas about the warmed-up set -/

/-- What one successful `run_iperf_ap` call does to the warmed-up set:
the warm-up runs exactly when the key is absent, the key is present
afterwards, and nothing else changes. -/
lemma run_iperf_ap_warm_state {warmed : List WarmKey} {band : String}
    {bw channel : Nat} {dir : Dir} {mcs : Int} {applyOk : Nat → Bool}
    {outputs : Nat → List String} {restart : Nat → Except String Unit}
    {r : ApRunResult}
    (h : run_iperf_ap warmed band bw channel dir mcs applyOk outputs restart = .ok r) :
    (r.didWarmup = true ↔ (band, bw, channel, dir) ∉ warmed)
    ∧ r.warmed = (if (band, bw, channel, dir) ∈ warmed then warmed
        else (band, bw, channel, dir) :: warmed) := by
  unfold run_iperf_ap at h
  cases hl : rateLockStage band dir mcs applyOk with
  | error e => rw [hl] at h; simp [Bind.bind, Except.bind] at h
  | ok b =>
    rw [hl] at h
    cases hs : realTestLoop dir outputs restart with
    | error e => simp [Bind.bind, Except.bind, hs] at h
    | ok stats =>
      by_cases hk : ((band, bw, channel, dir) : WarmKey) ∈ warmed <;>
        simp only [Bind.bind, Except.bind, hs, hk, if_pos, if_neg, if_true, if_false,
          not_false_iff, Except.ok.injEq] at h <;> subst h <;> simp [hk]

/-- Head unfolding of `countWarm`. -/
lemma countWarm_cons (a : WarmKey × Bool) (tr : List (WarmKey × Bool)) (k : WarmKey) :
    countWarm (a :: tr) k
      = (if a.2 && decide (a.1 = k) then 1 else 0) + countWarm tr k := by
  by_cases h : (a.2 && decide (a.1 = k)) = true <;>
    simp [countWarm, List.filter, h, Nat.add_comm]

/-- The sweep-level invariant: the warmed-up set only grows, and the
warm-up for a key runs at most once — never when the key is already in
the set. -/
lemma runSweepCalls_inv (k : WarmKey) :
    ∀ (calls : List ApCall) (st : List WarmKey),
      (∀ x, x ∈ st → x ∈ (runSweepCalls st calls).1)
      ∧ countWarm (runSweepCalls st calls).2 k ≤ (if k ∈ st then 0 else 1) := by
  intro calls
  induction calls with
  | nil =>
    intro st
    constructor
    · intro x hx; simpa [runSweepCalls] using hx
    · simp [runSweepCalls, countWarm]
  | cons c rest ih =>
    intro st
    cases hr : run_iperf_ap st c.band c.bw c.channel c.dir c.mcs c.applyOk c.outputs
        c.restart with
    | error e =>
      constructor
      · intro x hx; simpa [runSweepCalls, hr] using hx
      · simp [runSweepCalls, hr, countWarm]
    | ok r =>
      obtain ⟨hwarm_iff, hwarm_set⟩ := run_iperf_ap_warm_state hr
      have hkey : (c.band, c.bw, c.channel, c.dir) = c.key := rfl
      rw [hkey] at hwarm_iff hwarm_set
      by_cases hk : c.key ∈ st
      · -- key already warmed: set unchanged, no warm-up
        have hdw : r.didWarmup = false := by
          cases hdw : r.didWarmup
          · rfl
          · exact absurd hk (hwarm_iff.mp hdw)
        rw [if_pos hk] at hwarm_set
        constructor
        · intro x hx
          have := (ih st).1 x hx
          simpa [runSweepCalls, hr, hwarm_set] using this
        · have := (ih st).2
          simp only [runSweepCalls, hr, hwarm_set, countWarm_cons, hdw,
            Bool.false_and, if_neg (by simp : ¬(false = true)), Nat.zero_add]
          exact this
      · -- key not yet warmed: it is added and the warm-up runs
        have hdw : r.didWarmup = true := hwarm_iff.mpr hk
        rw [if_neg hk] at hwarm_set
        constructor
        · intro x hx
          have hx' : x ∈ c.key :: st := List.mem_cons_of_mem _ hx
          have := (ih (c.key :: st)).1 x hx'
          simpa [runSweepCalls, hr, hwarm_set] using this
        · have htail := (ih (c.key :: st)).2
          simp only [runSweepCalls, hr, hwarm_set, countWarm_cons, hdw, Bool.true_and]
          by_cases hkeq : c.key = k
          · subst hkeq
            rw [if_pos (List.mem_cons_self _ _)] at htail
            rw [if_neg hk]
            have hone : (if (decide (c.key = c.key) : Bool) = true then 1 else 0) = 1 := by
              simp
            omega
          · have : (k ∈ c.key :: st) ↔ (k ∈ st) := by
              constructor
              · intro hm
                rcases List.mem_cons.mp hm with hm | hm
                · exact absurd hm.symm hkeq
                · exact hm
              · exact fun hm => List.mem_cons_of_mem _ hm
            rw [if_congr this rfl rfl] at htail
            simp only [decide_eq_true_eq, if_neg hkeq]
            simpa using htail

/-- C5: across one orchestrator run the AP warm-up transfer for a given
`(band, width, channel, direction)` key executes at most once, however
many rates are swept for that key: `run_iperf_ap` warms up exactly when
the key is absent from `_AP_WARMED`, adds the key afterwards, and the set
only grows — entries are never removed. -/
theorem warmup_at_most_once_per_key :
    (∀ (calls : List ApCall) (k : WarmKey),
        countWarm (runSweepCalls [] calls).2 k ≤ 1)
    ∧ (∀ (calls : List ApCall) (st : List WarmKey) (x : WarmKey),
        x ∈ st → x ∈ (runSweepCalls st calls).1)
    ∧ (∀ (warmed : List WarmKey) (band : String) (bw channel : Nat) (dir : Dir)
        (mcs : Int) (applyOk : Nat → Bool) (outputs : Nat → List String)
        (restart : Nat → Except String Unit) (r : ApRunResult),
        run_iperf_ap warmed band bw channel dir mcs applyOk outputs restart = .ok r →
        (r.didWarmup = true ↔ (band, bw, channel, dir) ∉ warmed)
        ∧ r.warmed = (if (band, bw, channel, dir) ∈ warmed then warmed
            else (band, bw, channel, dir) :: warmed)) := by
  refine ⟨?_, ?_, ?_⟩
  · intro calls k
    have := (runSweepCalls_inv k calls []).2
    simpa using this
  · intro calls st x hx
    exact (runSweepCalls_inv x calls st).1 x hx
  · intro warmed band bw channel dir mcs applyOk outputs restart r h
    exact run_iperf_ap_warm_state h

/-- C5 witness: two consecutive sweeps of the same
`("5G", 20, 36, TX)` key warm up on the first call only (trace
`[true, false]`, count 1); a key placed in the set stays in it. -/
theorem warmup_at_most_once_per_key_witness :
    countWarm (runSweepCalls []
        [⟨"5G", 20, 36, .TX, 7, fun _ => true, fun _ => ["x"], fun _ => .ok ()⟩,
          ⟨"5G", 20, 36, .TX, 6, fun _ => true, fun _ => ["x"], fun _ => .ok ()⟩]).2
      ("5G", 20, 36, .TX) ≤ 1
    ∧ ("5G", 20, 36, Dir.TX) ∈ (runSweepCalls [("5G", 20, 36, Dir.TX)]
        [⟨"5G", 20, 36, .TX, 7, fun _ => true, fun _ => ["x"], fun _ => .ok ()⟩]).1
    ∧ ((⟨[("5G", 20, 36, Dir.TX)], true, true, true, 1, 0, 1⟩ : ApRunResult).didWarmup = true
        ↔ ("5G", 20, 36, Dir.TX) ∉ ([] : List WarmKey)) := by
  refine ⟨?_, ?_, ?_⟩
  · exact warmup_at_most_once_per_key.1 _ _
  · exact warmup_at_most_once_per_key.2.1 _ [("5G", 20, 36, Dir.TX)] _ (by simp)
  · have h := (warmup_at_most_once_per_key.2.2 [] "5G" 20 36 .TX 7
      (fun _ => true) (fun _ => ["x"]) (fun _ => .ok ())
      ⟨[("5G", 20, 36, Dir.TX)], true, true, true, 1, 0, 1⟩ rfl).1
    exact h

/-- C2 counterexample: the negotiated-rate verification routine
`rate.set_and_verify_mcs_ap` — the code that re-reads the driver's
`nrate` report and compares it with the requested MCS/NSS/width — does
raise on a mismatch: with every re-read reporting MCS 5 while MCS 7 was
requested, it exhausts its 3 attempts and raises
`RuntimeError("MCS verify failed ...")`, contradicting the claim that a
rate-lock verification mismatch never raises. -/
theorem rate_verify_mismatch_raises_counterexample :
    set_and_verify_mcs_ap 20 7 2 3 (fun _ => some (5, 2, 20))
      = .error "MCS verify failed" := rfl

/-- C2 (amended): in the sweep path, rate locking is non-fatal — the
AP-TX robust lock returns `false` after its 2 exhausted apply attempts
(continuing without an override, never raising), and `run_iperf_ap`
proceeds to the warm-up and throughput run with an outcome completely
independent of the rate-lock result; a verification mismatch within
`set_and_verify_mcs_ap`'s retry budget is tolerated (a later matching
re-read returns OK) — but that routine, which the sweep never calls,
does raise once all 3 verification re-reads mismatch. -/
theorem rate_lock_nonfatal_in_sweep :
    (∀ applyOk : Nat → Bool, applyOk 0 = false → applyOk 1 = false →
        ap_tx_rate_lock_robust_5g applyOk = false)
    ∧ (∀ (warmed : List WarmKey) (bw channel : Nat) (mcs : Int)
        (a b : Nat → Bool) (outputs : Nat → List String)
        (restart : Nat → Except String Unit),
        (run_iperf_ap warmed "5G" bw channel .TX mcs a outputs restart).map
            ApRunResult.observables
          = (run_iperf_ap warmed "5G" bw channel .TX mcs b outputs restart).map
            ApRunResult.observables)
    ∧ (∀ (bw mcs nss : Nat) (report : Nat → Option (Nat × Nat × Nat)),
        nrateMatches bw mcs nss (report 0) = false →
        nrateMatches bw mcs nss (report 1) = true →
        set_and_verify_mcs_ap bw mcs nss 3 report = .ok ()) := by
  refine ⟨?_, ?_, ?_⟩
  · intro applyOk h0 h1
    simp [ap_tx_rate_lock_robust_5g, h0, h1]
  · intro warmed bw channel mcs a b outputs restart
    cases hs : realTestLoop .TX outputs restart with
    | error e =>
      simp [run_iperf_ap, rateLockStage, hs, Bind.bind, Except.bind, Except.map]
    | ok stats =>
      by_cases hk : (("5G", bw, channel, Dir.TX) : WarmKey) ∈ warmed <;>
        simp [run_iperf_ap, rateLockStage, hk, hs, Bind.bind, Except.bind,
          Except.map, ApRunResult.observables]
  · intro bw mcs nss report h0 h1
    simp [set_and_verify_mcs_ap, setVerifyAux, h0, h1]

/-- C2 (amended) witness: both apply attempts failing degrades to
`false` (continue without override); a first mismatching re-read followed
by a matching one verifies OK. -/
theorem rate_lock_nonfatal_in_sweep_witness :
    ap_tx_rate_lock_robust_5g (fun _ => false) = false
    ∧ set_and_verify_mcs_ap 20 7 2 3
        (fun i => if i = 0 then some (5, 2, 20) else some (7, 2, 20)) = .ok () := by
  constructor
  · exact rate_lock_nonfatal_in_sweep.1 _ rfl rfl
  · exact rate_lock_nonfatal_in_sweep.2.2 20 7 2 _ (by decide) (by decide)

/-! ### Lemmas about the sweep loop of `main.main` -/

/-- On the 5 GHz band the guardrail filter keeps every matrix point. -/
lemma matrixPoints_5g (bws chs : List Nat) :
    matrixPoints "5G" bws chs
      = bws.flatMap (fun bw => chs.map (fun ch => (bw, ch))) := by
  rw [matrixPoints, List.filter_eq_self.mpr]
  intro a _
  simp [show (("5G" == "2G") = false) by decide]

/-- C1 counterexample: with widths `[20, 40]` and channel `[36]`, a
bring-up failure at the first matrix point `(20, 36)` terminates the
whole sweep — the run ends with the propagated error and the next matrix
point `(40, 36)`, although part of the matrix, is never attempted; the
loop body is `try/finally` with no `except`, so the orchestrator does
not advance to the next point. -/
theorem bringup_failure_aborts_sweep_counterexample :
    (mainSweep "5G" [20, 40] [36] bringupFailsAt2036).2
        = some "AP bring-up FAILED: BW=20 CH=36"
    ∧ (40, 36) ∈ matrixPoints "5G" [20, 40] [36]
    ∧ (40, 36) ∉ (mainSweep "5G" [20, 40] [36] bringupFailsAt2036).1 := by
  refine ⟨by decide, by decide, by decide⟩

/-- C1 (amended): a bring-up failure at a matrix point propagates out of
the per-point `try/finally` (which only closes the controller sessions)
and terminates the entire sweep: the points before the failing one are
processed, the failing point's error becomes the run's error, and no
later matrix point is attempted. -/
theorem bringup_failure_terminates_sweep (f : Nat × Nat → Except String Unit)
    (bw : Nat) (pre : List Nat) (ch : Nat) (post : List Nat) (e : String)
    (hpre : ∀ c ∈ pre, f (bw, c) = .ok ())
    (hfail : f (bw, ch) = .error e) :
    mainSweep "5G" [bw] (pre ++ ch :: post) f
      = (pre.map (fun c => (bw, c)) ++ [(bw, ch)], some e) := by
  unfold mainSweep
  rw [matrixPoints_5g]
  simp only [List.flatMap_cons, List.flatMap_nil, List.append_nil,
    List.map_append, List.map_cons]
  induction pre with
  | nil => simp [processPoints, hfail]
  | cons c cs ih =>
    have hc : f (bw, c) = .ok () := hpre c (by simp)
    simp only [List.map_cons, List.cons_append, processPoints, hc, List.append_eq]
    rw [ih (fun d hd => hpre d (by simp [hd]))]

/-- C1 (amended) witness: width 20, channels `[36, 149]`, bring-up
failing at channel 36 — the sweep stops there with the error; channel
149 is never processed. -/
theorem bringup_failure_terminates_sweep_witness :
    mainSweep "5G" [20] [36, 149] bringupFailsAt2036
      = ([(20, 36)], some "AP bring-up FAILED: BW=20 CH=36") := by
  have h := bringup_failure_terminates_sweep bringupFailsAt2036 20 [] 36 [149]
    "AP bring-up FAILED: BW=20 CH=36" (fun c hc => absurd hc (List.not_mem_nil c))
    rfl
  simpa using h

end Autotrade
